import Mathlib

/-!
# Backend score tracking and failure classification

A shallow embedding of `balancer/backend.go`: the per-backend unit of the
load balancer, which keeps one connection to a backend, refreshes a load
score through the load-report call and classifies the errors of that call.

Modelling conventions.

* A Go `int` is a 64-bit two's-complement integer.  The fields `maxFailures`
  and `failures` are integers of Lean and the one arithmetic operation of the
  file, `b.failures++`, wraps explicitly (`wrapInt`).
* The pointer fields `cc` and `cln` are options: `none` is the nil pointer.
* The gRPC library is outside the repository.  An error value is represented
  by the three observations `handleError` makes of it: whether it is the
  sentinel `grpc.ErrClientConnClosing`, its status code `grpc.Code(err)` and
  its text `err.Error()`.  The outcome of the remote call `b.cln.Load` is an
  input of `UpdateScore`.
* Methods with a pointer receiver return the new state of the receiver next
  to their Go result; a nil `error` is `none`.
-/

namespace balancer

/-! ## Machine integers -/

/-- Smallest value of a Go `int` (64 bits). -/
def minInt : Int := -9223372036854775808

/-- Largest value of a Go `int` (64 bits). -/
def maxInt : Int := 9223372036854775807

/-- Two's-complement wrap-around of an integer into the range of a Go `int`. -/
def wrapInt (x : Int) : Int :=
  (x + 9223372036854775808) % 18446744073709551616 - 9223372036854775808

/-- Membership in the range of a Go `int`. -/
def isInt (x : Int) : Prop := minInt ≤ x ∧ x ≤ maxInt

instance (x : Int) : Decidable (isInt x) := by
  unfold isInt; exact inferInstance

/-! ## The gRPC library, as far as the file observes it -/

/-- The status codes of `google.golang.org/grpc/codes`, in numeric order. -/
inductive Code where
  | OK
  | Canceled
  | Unknown
  | InvalidArgument
  | DeadlineExceeded
  | NotFound
  | AlreadyExists
  | PermissionDenied
  | ResourceExhausted
  | FailedPrecondition
  | Aborted
  | OutOfRange
  | Unimplemented
  | Internal
  | Unavailable
  | DataLoss
  | Unauthenticated
  deriving DecidableEq

/-- A non-nil Go `error` as `handleError` sees it.
`isErrClientConnClosing` is the outcome of `err == grpc.ErrClientConnClosing`,
`code` is `grpc.Code(err)` and `message` is `err.Error()`. -/
structure GrpcError where
  isErrClientConnClosing : Bool
  code : Code
  message : String
  deriving DecidableEq

/-- Whether `sub` occurs as a contiguous block of `s`. -/
def containsChars (sub : List Char) : List Char → Bool
  | [] => sub.isPrefixOf []
  | c :: cs => sub.isPrefixOf (c :: cs) || containsChars sub cs

/-- The Go function `strings.Contains(s, substr)`. -/
def stringsContains (s substr : String) : Bool :=
  containsChars substr.data s.data

/-- The outcome of one call `b.cln.Load(ctx, &LoadRequest{})`: a response
carrying a score (an `int64`), or a non-nil error. -/
inductive LoadResult where
  | ok (score : Int)
  | fail (err : GrpcError)
  deriving DecidableEq

/-- A `*grpc.ClientConn`; the only state followed is whether it was closed. -/
structure ClientConn where
  closed : Bool
  deriving DecidableEq

/-- A `backendpb.LoadReportClient`: the stub built by `NewLoadReportClient`
over the connection of the unit.  It has no state of its own. -/
inductive LoadReportClient where
  | mk
  deriving DecidableEq

/-! ## The backend unit -/

/-- The struct `backend`. -/
structure backend where
  cc : Option ClientConn
  cln : Option LoadReportClient
  target : String
  address : String
  score : Int
  maxFailures : Int
  failures : Int
  deriving DecidableEq

/-- The record `balancerpb.Server`. -/
structure Server where
  Address : String
  Score : Int
  deriving DecidableEq

/-- The method `Score`: an atomic load of the score field. -/
def backend.Score (b : backend) : Int :=
  b.score

/-- The method `Server`.  It assigns to no field of the unit: the unit after
the call is returned next to the record built. -/
def backend.Server (b : backend) : backend × Server :=
  (b, { Address := b.address, Score := b.Score })

/-- The method `handleError`.  Returns the unit after the call and the
error handed back to the caller (`none` for nil). -/
def backend.handleError (b : backend) (err : GrpcError) : backend × Option GrpcError :=
  -- switch err { case grpc.ErrClientConnClosing: return err }
  if err.isErrClientConnClosing then (b, some err)
  else
    let code := err.code
    if code = Code.Unimplemented then (b, none)
    else
      -- b.failures++
      let b1 : backend := { b with failures := wrapInt (b.failures + 1) }
      match code with
      | Code.Canceled =>
        if stringsContains err.message "closing" then (b1, some err)
        -- fallthrough
        else if 0 < b1.maxFailures ∧ b1.maxFailures ≤ b1.failures then (b1, some err)
        else (b1, none)
      | Code.DeadlineExceeded
      | Code.ResourceExhausted
      | Code.FailedPrecondition
      | Code.Aborted =>
        if 0 < b1.maxFailures ∧ b1.maxFailures ≤ b1.failures then (b1, some err)
        else (b1, none)
      | _ => (b1, some err)

/-- The method `UpdateScore`.  `load` is the outcome of the load-report call,
which is made only when the unit has a client. -/
def backend.UpdateScore (b : backend) (load : LoadResult) : backend × Option GrpcError :=
  match b.cln with
  | none => (b, none)
  | some _ =>
    match load with
    | LoadResult.fail err => b.handleError err
    | LoadResult.ok score => ({ b with failures := 0, score := score }, none)

/-- The method `Close`.  `closeErr` is what `b.cc.Close()` returns, used only
when the unit has a connection. -/
def backend.Close (b : backend) (closeErr : Option GrpcError) : backend × Option GrpcError :=
  match b.cc with
  | none => (b, none)
  | some _ => ({ b with cc := some { closed := true } }, closeErr)

/-- What `newBackend` leaves behind: the unit and the error it returns, and
the connection it dialled (if the dial succeeded) in its final state. -/
structure NewBackendResult where
  unit : Option backend
  err : Option GrpcError
  conn : Option ClientConn
  deriving DecidableEq

/-- The function `newBackend`.  `dial` is the connection returned by
`grpc.DialContext` (`none` when the dial fails, in which case the returned
connection is nil), `load` the outcome of the first load-report call and
`closeErr` what closing the connection returns. -/
def newBackend (target address : String) (maxFailures : Int) (dial : Option ClientConn)
    (load : LoadResult) (closeErr : Option GrpcError) : NewBackendResult :=
  let b : backend :=
    { cc := none, cln := none, target := target, address := address, score := 0,
      maxFailures := maxFailures, failures := 0 }
  match dial with
  | none => { unit := some b, err := none, conn := none }
  | some conn =>
    let b1 : backend := { b with cc := some conn, cln := some LoadReportClient.mk }
    let r := b1.UpdateScore load
    match r.2 with
    | some err => { unit := none, err := some err, conn := (r.1.Close closeErr).1.cc }
    | none => { unit := some r.1, err := none, conn := r.1.cc }

/-- A run of `UpdateScore` calls, one per outcome of the load-report call, in
order: the unit after the last call and the result of every call. -/
def backend.updateScores (b : backend) : List LoadResult → backend × List (Option GrpcError)
  | [] => (b, [])
  | load :: rest =>
    let r := b.UpdateScore load
    let rs := backend.updateScores r.1 rest
    (rs.1, r.2 :: rs.2)

/-- A run of `Close` calls, one per result of `b.cc.Close()`, in order: the
unit after the last call and the result of every call. -/
def backend.closeAll (b : backend) : List (Option GrpcError) → backend × List (Option GrpcError)
  | [] => (b, [])
  | closeErr :: rest =>
    let r := b.Close closeErr
    let rs := backend.closeAll r.1 rest
    (rs.1, r.2 :: rs.2)

/-- The unit `newBackend` holds once the dial has succeeded and the client is
built, right before its call of `UpdateScore`. -/
def dialledBackend (target address : String) (maxFailures : Int) (conn : ClientConn) :
    backend :=
  { cc := some conn, cln := some LoadReportClient.mk, target := target, address := address,
    score := 0, maxFailures := maxFailures, failures := 0 }

/-- The score carried by the last success of a sequence of outcomes of the
load-report call, if the sequence has a success. -/
def lastSuccess : List LoadResult → Option Int
  | [] => none
  | LoadResult.ok score :: rest =>
    match lastSuccess rest with
    | some later => some later
    | none => some score
  | LoadResult.fail _ :: rest => lastSuccess rest

/-! ## The classes of errors -/

/-- The path an error takes through `handleError`, named after the rows of
the classification table: the sentinel test (`closing`), the test for
`codes.Unimplemented` (`ignore`), the `closing` test of the `codes.Canceled`
case (`canceledClosing`), the threshold test shared by the five recoverable
codes (`recoverable`), and the final `return err` (`unclassified`). -/
inductive ErrorClass where
  | closing
  | ignore
  | canceledClosing
  | recoverable
  | unclassified
  deriving DecidableEq

/-- The class of an error: the tests of `handleError` in their order. -/
def classify (err : GrpcError) : ErrorClass :=
  if err.isErrClientConnClosing then ErrorClass.closing
  else if err.code = Code.Unimplemented then ErrorClass.ignore
  else if err.code = Code.Canceled then
    if stringsContains err.message "closing" then ErrorClass.canceledClosing
    else ErrorClass.recoverable
  else if err.code = Code.DeadlineExceeded ∨ err.code = Code.ResourceExhausted ∨
      err.code = Code.FailedPrecondition ∨ err.code = Code.Aborted then
    ErrorClass.recoverable
  else ErrorClass.unclassified

/-- An error of the recoverable class: not the sentinel, with code
deadline-exceeded, resource-exhausted, failed-precondition or aborted, or
canceled with a text that does not contain "closing". -/
def recoverableClass (err : GrpcError) : Bool :=
  !err.isErrClientConnClosing &&
    (err.code == Code.DeadlineExceeded || err.code == Code.ResourceExhausted ||
     err.code == Code.FailedPrecondition || err.code == Code.Aborted ||
     (err.code == Code.Canceled && !stringsContains err.message "closing"))

/-- An error that passes the statement `b.failures++` of `handleError`: it is
neither the sentinel nor of code `codes.Unimplemented`. -/
def counted (err : GrpcError) : Bool :=
  !err.isErrClientConnClosing && err.code != Code.Unimplemented

/-- One step of a count over refresh outcomes that restarts at every success
and advances at every failed call whose error satisfies `p`. -/
def countStep (p : GrpcError → Bool) (acc : Nat) : LoadResult → Nat
  | LoadResult.ok _ => 0
  | LoadResult.fail err => if p err then acc + 1 else acc

/-- The number of failed calls whose error satisfies `p` since the last
success of the sequence, or since its start when it has no success, on top of
`acc` calls counted before the sequence. -/
def countSinceSuccess (p : GrpcError → Bool) (acc : Nat) (loads : List LoadResult) : Nat :=
  loads.foldl (countStep p) acc

/-! ## Sample values -/

/-- A connected unit as `newBackend` builds it, with threshold `maxFailures`
and failure counter `failures`. -/
def sampleBackend (maxFailures failures : Int) : backend :=
  { cc := some { closed := false }
    cln := some LoadReportClient.mk
    target := "svc"
    address := "10.0.0.1:8080"
    score := 7
    maxFailures := maxFailures
    failures := failures }

/-- A deadline-exceeded error. -/
def errDeadline : GrpcError :=
  { isErrClientConnClosing := false
    code := Code.DeadlineExceeded
    message := "rpc error: code = 4 desc = context deadline exceeded" }

/-- A canceled error whose text does not mention closing. -/
def errCanceled : GrpcError :=
  { isErrClientConnClosing := false
    code := Code.Canceled
    message := "rpc error: code = 1 desc = context canceled" }

/-- A canceled error raised because the connection is closing. -/
def errCanceledClosing : GrpcError :=
  { isErrClientConnClosing := false
    code := Code.Canceled
    message := "rpc error: code = 1 desc = grpc: the client connection is closing" }

/-- An unimplemented error. -/
def errUnimplemented : GrpcError :=
  { isErrClientConnClosing := false
    code := Code.Unimplemented
    message := "rpc error: code = 12 desc = unknown service grpclb.backend.v1.LoadReport" }

/-- An error of code unavailable. -/
def errUnavailable : GrpcError :=
  { isErrClientConnClosing := false
    code := Code.Unavailable
    message := "rpc error: code = 14 desc = connection refused" }

/-- The unit `newBackend` returns when the dial fails. -/
def degradedBackend : backend :=
  { cc := none
    cln := none
    target := "svc"
    address := "10.0.0.1:8080"
    score := 0
    maxFailures := 3
    failures := 0 }

/-- The sentinel `grpc.ErrClientConnClosing`. -/
def errClientConnClosing : GrpcError :=
  { isErrClientConnClosing := true
    code := Code.Unknown
    message := "grpc: the client connection is closing" }

/-! ## Theorems -/

/-! ### Machine integers -/

theorem wrapInt_of_isInt (x : Int) (h : isInt x) : wrapInt x = x := by
  unfold isInt minInt maxInt at h
  unfold wrapInt
  omega

theorem wrapInt_succ_wrapInt (x : Int) : wrapInt (wrapInt x + 1) = wrapInt (x + 1) := by
  unfold wrapInt
  omega

theorem wrapInt_le_self (x : Int) (h : 0 ≤ x) : wrapInt x ≤ x := by
  unfold wrapInt
  omega

theorem wrapInt_succ (x : Int) (h : isInt x) (hx : x < maxInt) : wrapInt (x + 1) = x + 1 := by
  unfold isInt minInt maxInt at *
  unfold wrapInt
  omega

/-! ### Substring test -/

theorem containsChars_iff (sub s : List Char) : containsChars sub s = true ↔ sub <:+: s := by
  induction s with
  | nil => simp [containsChars, List.infix_nil, List.isPrefixOf_iff_prefix]
  | cons c cs ih =>
    simp [containsChars, List.infix_cons_iff, List.isPrefixOf_iff_prefix, ih]

/-! ### One call of handleError, by class of error -/

theorem classify_recoverable_iff (err : GrpcError) :
    classify err = ErrorClass.recoverable ↔ recoverableClass err = true := by
  obtain ⟨s, c, m⟩ := err
  cases s <;> cases c <;> simp [classify, recoverableClass]

theorem handleError_closing (b : backend) (err : GrpcError)
    (h : err.isErrClientConnClosing = true) : b.handleError err = (b, some err) := by
  simp [backend.handleError, h]

theorem handleError_ignore (b : backend) (err : GrpcError)
    (hs : err.isErrClientConnClosing = false) (hc : err.code = Code.Unimplemented) :
    b.handleError err = (b, none) := by
  simp [backend.handleError, hs, hc]

theorem handleError_recoverable (b : backend) (err : GrpcError)
    (h : recoverableClass err = true) :
    b.handleError err =
      ({ b with failures := wrapInt (b.failures + 1) },
        if 0 < b.maxFailures ∧ b.maxFailures ≤ wrapInt (b.failures + 1) then some err
        else none) := by
  obtain ⟨s, c, m⟩ := err
  cases s <;> cases c <;> simp [recoverableClass] at h <;>
    simp [backend.handleError, h] <;> split <;> rfl

theorem handleError_canceledClosing (b : backend) (err : GrpcError)
    (hs : err.isErrClientConnClosing = false) (hc : err.code = Code.Canceled)
    (hm : stringsContains err.message "closing" = true) :
    b.handleError err = ({ b with failures := wrapInt (b.failures + 1) }, some err) := by
  simp [backend.handleError, hs, hc, hm]

theorem handleError_unclassified (b : backend) (err : GrpcError)
    (hs : err.isErrClientConnClosing = false)
    (hc : err.code ≠ Code.Unimplemented ∧ err.code ≠ Code.Canceled ∧
      err.code ≠ Code.DeadlineExceeded ∧ err.code ≠ Code.ResourceExhausted ∧
      err.code ≠ Code.FailedPrecondition ∧ err.code ≠ Code.Aborted) :
    b.handleError err = ({ b with failures := wrapInt (b.failures + 1) }, some err) := by
  obtain ⟨s, c, m⟩ := err
  cases c <;> simp at hc <;> simp_all [backend.handleError]

theorem updateScore_fail (b : backend) (err : GrpcError) (h : b.cln ≠ none) :
    b.UpdateScore (LoadResult.fail err) = b.handleError err := by
  cases hc : b.cln with
  | none => exact absurd hc h
  | some c => simp [backend.UpdateScore, hc]

/-! ### Frame of a call and runs of calls -/

theorem handleError_frame (b : backend) (err : GrpcError) :
    (b.handleError err).1 = { b with failures := (b.handleError err).1.failures } := by
  obtain ⟨s, c, m⟩ := err
  cases s <;> cases c <;> simp [backend.handleError] <;> split <;> (try split) <;> rfl

theorem updateScore_ok (b : backend) (s : Int) (h : b.cln ≠ none) :
    b.UpdateScore (LoadResult.ok s) = ({ b with failures := 0, score := s }, none) := by
  cases hc : b.cln with
  | none => exact absurd hc h
  | some c => simp [backend.UpdateScore, hc]

theorem updateScore_frame (b : backend) (load : LoadResult) :
    (b.UpdateScore load).1.cln = b.cln ∧
    (b.UpdateScore load).1.maxFailures = b.maxFailures := by
  cases load with
  | ok s => cases hc : b.cln <;> simp [backend.UpdateScore, hc]
  | fail err =>
    cases hc : b.cln with
    | none => simp [backend.UpdateScore, hc]
    | some c =>
      rw [updateScore_fail b err (by simp [hc]), handleError_frame b err]
      exact ⟨hc, rfl⟩

theorem updateScores_frame (loads : List LoadResult) (b : backend) :
    (b.updateScores loads).1.cln = b.cln ∧
    (b.updateScores loads).1.maxFailures = b.maxFailures := by
  induction loads generalizing b with
  | nil => simp [backend.updateScores]
  | cons load rest ih =>
    have h1 := updateScore_frame b load
    have h2 := ih (b.UpdateScore load).1
    simp only [backend.updateScores]
    exact ⟨h2.1.trans h1.1, h2.2.trans h1.2⟩

theorem updateScores_append (xs ys : List LoadResult) (b : backend) :
    b.updateScores (xs ++ ys) =
      (((b.updateScores xs).1.updateScores ys).1,
        (b.updateScores xs).2 ++ ((b.updateScores xs).1.updateScores ys).2) := by
  induction xs generalizing b with
  | nil => simp [backend.updateScores]
  | cons x rest ih => simp [backend.updateScores, ih]

theorem updateScores_tolerated (errs : List GrpcError) (b : backend) (h : b.cln ≠ none)
    (hrec : ∀ e ∈ errs, recoverableClass e = true) (h0 : 0 ≤ b.failures)
    (hlt : b.failures + errs.length < b.maxFailures) (hmax : b.maxFailures ≤ maxInt) :
    b.updateScores (errs.map LoadResult.fail) =
      ({ b with failures := b.failures + errs.length }, List.replicate errs.length none) := by
  induction errs generalizing b with
  | nil => simp [backend.updateScores]
  | cons e es ih =>
    have he : recoverableClass e = true := hrec e (List.mem_cons_self e es)
    have hes : ∀ x ∈ es, recoverableClass x = true :=
      fun x hx => hrec x (List.mem_cons_of_mem e hx)
    simp only [List.length_cons, Nat.cast_add, Nat.cast_one] at hlt
    have hw : wrapInt (b.failures + 1) = b.failures + 1 := by
      unfold maxInt at hmax
      unfold wrapInt
      omega
    have hstep : b.UpdateScore (LoadResult.fail e) =
        ({ b with failures := b.failures + 1 }, none) := by
      rw [updateScore_fail b e h, handleError_recoverable b e he, hw]
      have hno : ¬ (0 < b.maxFailures ∧ b.maxFailures ≤ b.failures + 1) := by omega
      simp [hno]
    have hrest := ih { b with failures := b.failures + 1 } h hes
      (by show 0 ≤ b.failures + 1; omega)
      (by show b.failures + 1 + (es.length : Int) < b.maxFailures; omega) hmax
    simp only [List.map_cons, backend.updateScores, hstep, hrest, List.length_cons,
      List.replicate_succ, Nat.cast_add, Nat.cast_one]
    have harith : b.failures + 1 + (es.length : Int) = b.failures + ((es.length : Int) + 1) := by
      omega
    rw [harith]

theorem updateScores_disabled (errs : List GrpcError) (b : backend)
    (hrec : ∀ e ∈ errs, recoverableClass e = true) (hmax : b.maxFailures ≤ 0) :
    (b.updateScores (errs.map LoadResult.fail)).2 = List.replicate errs.length none := by
  induction errs generalizing b with
  | nil => simp [backend.updateScores]
  | cons e es ih =>
    have he : recoverableClass e = true := hrec e (List.mem_cons_self e es)
    have hes : ∀ x ∈ es, recoverableClass x = true :=
      fun x hx => hrec x (List.mem_cons_of_mem e hx)
    have hfr := (updateScore_frame b (LoadResult.fail e)).2
    have hrest := ih (b.UpdateScore (LoadResult.fail e)).1 hes (by rw [hfr]; exact hmax)
    have hhead : (b.UpdateScore (LoadResult.fail e)).2 = none := by
      cases hc : b.cln with
      | none => simp [backend.UpdateScore, hc]
      | some c =>
        rw [updateScore_fail b e (by simp [hc]), handleError_recoverable b e he]
        have hno : ¬ (0 < b.maxFailures ∧ b.maxFailures ≤ wrapInt (b.failures + 1)) := by omega
        simp [hno]
    simp only [List.map_cons, backend.updateScores, hrest, hhead, List.length_cons,
      List.replicate_succ]

theorem handleError_failures (b : backend) (err : GrpcError) :
    (b.handleError err).1.failures =
      if counted err = true then wrapInt (b.failures + 1) else b.failures := by
  obtain ⟨s, c, m⟩ := err
  cases s <;> cases c <;> simp [backend.handleError, counted] <;> split <;>
    (try split) <;> rfl

theorem updateScore_failures_count (b : backend) (load : LoadResult) (acc : Nat)
    (h : b.cln ≠ none) (hacc : b.failures = wrapInt acc) :
    (b.UpdateScore load).1.failures = wrapInt (countStep counted acc load) := by
  cases load with
  | ok s =>
    cases hc : b.cln with
    | none => exact absurd hc h
    | some c => simp [backend.UpdateScore, hc, countStep, wrapInt]
  | fail err =>
    rw [updateScore_fail b err h, handleError_failures b err]
    by_cases hcnt : counted err = true
    · simp only [hcnt, if_true, countStep, hacc, Nat.cast_add, Nat.cast_one]
      exact wrapInt_succ_wrapInt _
    · simp only [hcnt, countStep, hacc]
      simp

theorem updateScores_failures_count (loads : List LoadResult) (b : backend) (acc : Nat)
    (h : b.cln ≠ none) (hacc : b.failures = wrapInt acc) :
    (b.updateScores loads).1.failures = wrapInt (countSinceSuccess counted acc loads) := by
  induction loads generalizing b acc with
  | nil => simpa [backend.updateScores, countSinceSuccess] using hacc
  | cons load rest ih =>
    have h1 := updateScore_failures_count b load acc h hacc
    have hc : (b.UpdateScore load).1.cln ≠ none := by
      rw [(updateScore_frame b load).1]; exact h
    have h2 := ih (b.UpdateScore load).1 (countStep counted acc load) hc h1
    simpa [backend.updateScores, countSinceSuccess] using h2

theorem countSinceSuccess_append (p : GrpcError → Bool) (acc : Nat) (xs : List LoadResult)
    (x : LoadResult) :
    countSinceSuccess p acc (xs ++ [x]) = countStep p (countSinceSuccess p acc xs) x := by
  simp [countSinceSuccess, List.foldl_append]

theorem handleError_result (b : backend) (err : GrpcError) :
    (b.handleError err).2 = none ∨ (b.handleError err).2 = some err := by
  obtain ⟨s, c, m⟩ := err
  cases s <;> cases c <;> simp [backend.handleError] <;> split <;> (try split) <;> simp

theorem updateScore_fail_score (b : backend) (err : GrpcError) :
    (b.UpdateScore (LoadResult.fail err)).1.score = b.score := by
  cases hc : b.cln with
  | none => simp [backend.UpdateScore, hc]
  | some c =>
    rw [updateScore_fail b err (by simp [hc]), handleError_frame b err]

theorem updateScores_score (loads : List LoadResult) (b : backend) (h : b.cln ≠ none) :
    (b.updateScores loads).1.score = (lastSuccess loads).getD b.score := by
  induction loads generalizing b with
  | nil => rfl
  | cons load rest ih =>
    have hc : (b.UpdateScore load).1.cln ≠ none := by
      rw [(updateScore_frame b load).1]; exact h
    have hrest := ih (b.UpdateScore load).1 hc
    simp only [backend.updateScores, hrest]
    cases load with
    | ok s =>
      rw [updateScore_ok b s h]
      simp only [lastSuccess]
      cases lastSuccess rest <;> rfl
    | fail err =>
      rw [updateScore_fail_score b err]
      rfl

theorem updateScores_fail_failures_bounds (errs : List GrpcError) (b : backend)
    (h : b.cln ≠ none) (h0 : 0 ≤ b.failures)
    (hroom : b.failures + (errs.length : Int) ≤ maxInt) :
    b.failures ≤ (b.updateScores (errs.map LoadResult.fail)).1.failures ∧
    (b.updateScores (errs.map LoadResult.fail)).1.failures ≤
      b.failures + (errs.length : Int) := by
  induction errs generalizing b with
  | nil => simp [backend.updateScores]
  | cons e es ih =>
    simp only [List.length_cons, Nat.cast_add, Nat.cast_one] at hroom ⊢
    have hc : (b.UpdateScore (LoadResult.fail e)).1.cln ≠ none := by
      rw [(updateScore_frame b (LoadResult.fail e)).1]; exact h
    have hstep : b.failures ≤ (b.UpdateScore (LoadResult.fail e)).1.failures ∧
        (b.UpdateScore (LoadResult.fail e)).1.failures ≤ b.failures + 1 := by
      rw [updateScore_fail b e h, handleError_failures b e]
      have hw : wrapInt (b.failures + 1) = b.failures + 1 := by
        unfold maxInt at hroom
        unfold wrapInt
        omega
      split <;> omega
    have hrest := ih (b.UpdateScore (LoadResult.fail e)).1 hc (by omega) (by omega)
    simp only [List.map_cons, backend.updateScores]
    constructor <;> omega

/-- C1: on a connected unit, whatever its score, failure counter and
threshold, a load-report call that succeeds with score `s` makes `UpdateScore`
return nil, `Score()` afterwards is `s` and the failure counter is 0. -/
theorem updateScore_success (b : backend) (s : Int) (h : b.cln ≠ none) :
    (b.UpdateScore (LoadResult.ok s)).2 = none ∧
    (b.UpdateScore (LoadResult.ok s)).1.Score = s ∧
    (b.UpdateScore (LoadResult.ok s)).1.failures = 0 := by
  rw [updateScore_ok b s h]
  exact ⟨rfl, rfl, rfl⟩

theorem updateScore_success_witness :
    (sampleBackend 3 2).cln ≠ none ∧
    ((sampleBackend 3 2).UpdateScore (LoadResult.ok 42)).2 = none ∧
    ((sampleBackend 3 2).UpdateScore (LoadResult.ok 42)).1.Score = 42 ∧
    ((sampleBackend 3 2).UpdateScore (LoadResult.ok 42)).1.failures = 0 :=
  ⟨by decide, updateScore_success (sampleBackend 3 2) 42 (by decide)⟩

/-- C2: on a connected unit, a failed call whose error is not the sentinel and
whose code is deadline-exceeded, resource-exhausted, failed-precondition,
aborted, or canceled with a text that does not contain "closing", increments
the failure counter by one (the increment of a Go `int`: the value after is
the value before plus one whenever the value before is below the largest
`int`), and `UpdateScore` returns the error exactly when `maxFailures > 0` and
the incremented counter has reached `maxFailures`, and nil otherwise. -/
theorem updateScore_recoverable (b : backend) (err : GrpcError) (h : b.cln ≠ none)
    (hs : err.isErrClientConnClosing = false)
    (hc : err.code = Code.DeadlineExceeded ∨ err.code = Code.ResourceExhausted ∨
      err.code = Code.FailedPrecondition ∨ err.code = Code.Aborted ∨
      (err.code = Code.Canceled ∧ stringsContains err.message "closing" = false)) :
    (b.UpdateScore (LoadResult.fail err)).1.failures = wrapInt (b.failures + 1) ∧
    (isInt b.failures → b.failures < maxInt →
      (b.UpdateScore (LoadResult.fail err)).1.failures = b.failures + 1) ∧
    ((b.UpdateScore (LoadResult.fail err)).2 = some err ↔
      (0 < b.maxFailures ∧
        b.maxFailures ≤ (b.UpdateScore (LoadResult.fail err)).1.failures)) ∧
    ((b.UpdateScore (LoadResult.fail err)).2 ≠ some err →
      (b.UpdateScore (LoadResult.fail err)).2 = none) := by
  have he : recoverableClass err = true := by
    obtain ⟨s, c, m⟩ := err
    simp only at hs hc
    subst hs
    rcases hc with hc | hc | hc | hc | ⟨hc, hm⟩ <;> subst hc <;> simp [recoverableClass]
    exact hm
  rw [updateScore_fail b err h, handleError_recoverable b err he]
  refine ⟨rfl, fun hi hlt => wrapInt_succ b.failures hi hlt, ?_, ?_⟩
  · by_cases hcond : 0 < b.maxFailures ∧ b.maxFailures ≤ wrapInt (b.failures + 1)
    · simp [hcond]
    · simp only [hcond, if_false, iff_false]
      simp
  · by_cases hcond : 0 < b.maxFailures ∧ b.maxFailures ≤ wrapInt (b.failures + 1)
    · simp [hcond]
    · simp [hcond]

theorem updateScore_recoverable_witness :
    (sampleBackend 3 2).cln ≠ none ∧ errDeadline.isErrClientConnClosing = false ∧
    ((sampleBackend 3 2).UpdateScore (LoadResult.fail errDeadline)).1.failures =
      wrapInt ((sampleBackend 3 2).failures + 1) ∧
    (isInt (sampleBackend 3 2).failures → (sampleBackend 3 2).failures < maxInt →
      ((sampleBackend 3 2).UpdateScore (LoadResult.fail errDeadline)).1.failures =
        (sampleBackend 3 2).failures + 1) ∧
    (((sampleBackend 3 2).UpdateScore (LoadResult.fail errDeadline)).2 = some errDeadline ↔
      (0 < (sampleBackend 3 2).maxFailures ∧
        (sampleBackend 3 2).maxFailures ≤
          ((sampleBackend 3 2).UpdateScore (LoadResult.fail errDeadline)).1.failures)) ∧
    (((sampleBackend 3 2).UpdateScore (LoadResult.fail errDeadline)).2 ≠ some errDeadline →
      ((sampleBackend 3 2).UpdateScore (LoadResult.fail errDeadline)).2 = none) :=
  ⟨by decide, by decide,
    updateScore_recoverable (sampleBackend 3 2) errDeadline (by decide) (by decide)
      (by decide)⟩

/-- C3: for every threshold `n > 0`, on a connected unit whose failure counter
is 0, a run of `n` consecutive `UpdateScore` calls that each fail with an
error of the recoverable class returns nil on each of the first `n - 1` calls
and the error of the call on the `n`-th. -/
theorem updateScores_threshold (b : backend) (n : Nat) (pre : List GrpcError)
    (e : GrpcError) (h : b.cln ≠ none) (hn : 0 < n) (hmax : b.maxFailures = n)
    (hint : isInt b.maxFailures) (h0 : b.failures = 0) (hlen : (pre ++ [e]).length = n)
    (hrec : ∀ x ∈ pre ++ [e], recoverableClass x = true) :
    (b.updateScores ((pre ++ [e]).map LoadResult.fail)).2 =
      List.replicate (n - 1) none ++ [some e] := by
  have hpre : ∀ x ∈ pre, recoverableClass x = true :=
    fun x hx => hrec x (List.mem_append_left _ hx)
  have he : recoverableClass e = true := hrec e (by simp)
  have hl : pre.length + 1 = n := by simpa using hlen
  have htol := updateScores_tolerated pre b h hpre (by omega) (by omega) hint.2
  have hw : wrapInt ((pre.length : Int) + 1) = (pre.length : Int) + 1 := by
    have := hint.2
    unfold maxInt at this
    unfold wrapInt
    omega
  have hyes : 0 < b.maxFailures ∧ b.maxFailures ≤ (pre.length : Int) + 1 := by omega
  rw [List.map_append, updateScores_append, htol]
  simp only [List.map_cons, List.map_nil, backend.updateScores]
  rw [updateScore_fail { b with failures := b.failures + (pre.length : Int) } e h,
    handleError_recoverable _ e he]
  simp only [h0, zero_add, hw, hyes, and_self, if_true]
  have : n - 1 = pre.length := by omega
  rw [this]

theorem updateScores_threshold_witness :
    (sampleBackend 3 0).cln ≠ none ∧
    ((sampleBackend 3 0).updateScores
      (([errDeadline, errCanceled] ++ [errDeadline]).map LoadResult.fail)).2 =
      List.replicate (3 - 1) none ++ [some errDeadline] :=
  ⟨by decide,
    updateScores_threshold (sampleBackend 3 0) 3 [errDeadline, errCanceled] errDeadline
      (by decide) (by decide) (by decide) (by decide) (by decide) (by decide) (by decide)⟩

/-- C4: a successful refresh restarts the failure count.  For every threshold
`n > 0` and every sequence of refresh outcomes followed by a success, the next
`n - 1` (or fewer) errors of the recoverable class all return nil, whatever
preceded the success. -/
theorem updateScores_success_restarts (b : backend) (n : Nat) (pre : List LoadResult)
    (s : Int) (errs : List GrpcError) (h : b.cln ≠ none) (hn : 0 < n)
    (hmax : b.maxFailures = n) (hint : isInt b.maxFailures) (hlen : errs.length ≤ n - 1)
    (hrec : ∀ x ∈ errs, recoverableClass x = true) :
    (b.updateScores (pre ++ [LoadResult.ok s] ++ errs.map LoadResult.fail)).2 =
      (b.updateScores pre).2 ++ [none] ++ List.replicate errs.length none := by
  have hfr := updateScores_frame pre b
  have hc1 : (b.updateScores pre).1.cln ≠ none := by rw [hfr.1]; exact h
  have hstep := updateScore_ok (b.updateScores pre).1 s hc1
  have hfr2 := updateScore_frame (b.updateScores pre).1 (LoadResult.ok s)
  have hc2 : ((b.updateScores pre).1.UpdateScore (LoadResult.ok s)).1.cln ≠ none := by
    rw [hfr2.1]; exact hc1
  have hm2 : ((b.updateScores pre).1.UpdateScore (LoadResult.ok s)).1.maxFailures = n := by
    rw [hfr2.2, hfr.2]; exact hmax
  have hf2 : ((b.updateScores pre).1.UpdateScore (LoadResult.ok s)).1.failures = 0 := by
    rw [hstep]
  have htol := updateScores_tolerated errs
    ((b.updateScores pre).1.UpdateScore (LoadResult.ok s)).1 hc2 hrec
    (by rw [hf2]) (by rw [hf2, hm2]; omega)
    (by rw [hm2, ← hmax]; exact hint.2)
  rw [updateScores_append, updateScores_append]
  simp only [backend.updateScores, htol, List.append_nil]
  rw [hstep]

theorem updateScores_success_restarts_witness :
    (sampleBackend 3 0).cln ≠ none ∧
    ((sampleBackend 3 0).updateScores
      [LoadResult.fail errDeadline, LoadResult.fail errDeadline]).2 = [none, none] ∧
    ((sampleBackend 3 0).updateScores
      ([LoadResult.fail errDeadline, LoadResult.fail errDeadline] ++ [LoadResult.ok 5] ++
        [errDeadline, errCanceled].map LoadResult.fail)).2 =
      ((sampleBackend 3 0).updateScores
        [LoadResult.fail errDeadline, LoadResult.fail errDeadline]).2 ++ [none] ++
        List.replicate [errDeadline, errCanceled].length none :=
  ⟨by decide, by decide,
    updateScores_success_restarts (sampleBackend 3 0) 3
      [LoadResult.fail errDeadline, LoadResult.fail errDeadline] 5 [errDeadline, errCanceled]
      (by decide) (by decide) (by decide) (by decide) (by decide) (by decide)⟩

/-- C5: on a connected unit, whatever the threshold and the failure counter, a
failed call with code unimplemented (the error not being the sentinel, which
is tested first) makes `UpdateScore` return nil and leaves `Score()` and the
failure counter unchanged. -/
theorem updateScore_unimplemented (b : backend) (err : GrpcError) (h : b.cln ≠ none)
    (hs : err.isErrClientConnClosing = false) (hc : err.code = Code.Unimplemented) :
    (b.UpdateScore (LoadResult.fail err)).2 = none ∧
    (b.UpdateScore (LoadResult.fail err)).1.Score = b.Score ∧
    (b.UpdateScore (LoadResult.fail err)).1.failures = b.failures := by
  rw [updateScore_fail b err h, handleError_ignore b err hs hc]
  exact ⟨rfl, rfl, rfl⟩

theorem updateScore_unimplemented_witness :
    (sampleBackend 3 5).cln ≠ none ∧
    ((sampleBackend 3 5).UpdateScore (LoadResult.fail errUnimplemented)).2 = none ∧
    ((sampleBackend 3 5).UpdateScore (LoadResult.fail errUnimplemented)).1.Score =
      (sampleBackend 3 5).Score ∧
    ((sampleBackend 3 5).UpdateScore (LoadResult.fail errUnimplemented)).1.failures =
      (sampleBackend 3 5).failures :=
  ⟨by decide,
    updateScore_unimplemented (sampleBackend 3 5) errUnimplemented (by decide) (by decide)
      (by decide)⟩

/-- C6: on a connected unit, whatever the threshold (0 included) and the
failure counter (0 included), a failed call with code canceled and a text
containing "closing" makes `UpdateScore` return that same error on that
call. -/
theorem updateScore_canceled_closing (b : backend) (err : GrpcError) (h : b.cln ≠ none)
    (hc : err.code = Code.Canceled) (hm : stringsContains err.message "closing" = true) :
    (b.UpdateScore (LoadResult.fail err)).2 = some err := by
  rw [updateScore_fail b err h]
  cases hs : err.isErrClientConnClosing with
  | true => rw [handleError_closing b err hs]
  | false => rw [handleError_canceledClosing b err hs hc hm]

theorem updateScore_canceled_closing_witness :
    (sampleBackend 0 0).cln ≠ none ∧
    stringsContains errCanceledClosing.message "closing" = true ∧
    ((sampleBackend 0 0).UpdateScore (LoadResult.fail errCanceledClosing)).2 =
      some errCanceledClosing :=
  ⟨by decide, by decide,
    updateScore_canceled_closing (sampleBackend 0 0) errCanceledClosing (by decide)
      (by decide) (by decide)⟩

/-- C7, as stated, fails: an error of an unclassified code and a canceled
error whose text contains "closing" are both fatal on the spot, and each
leaves the failure counter one higher than before the call. -/
theorem failures_unchanged_on_fatal_counterexample :
    (sampleBackend 3 0).cln ≠ none ∧
    classify errUnavailable = ErrorClass.unclassified ∧
    ((sampleBackend 3 0).UpdateScore (LoadResult.fail errUnavailable)).2 =
      some errUnavailable ∧
    ((sampleBackend 3 0).UpdateScore (LoadResult.fail errUnavailable)).1.failures ≠
      (sampleBackend 3 0).failures ∧
    classify errCanceledClosing = ErrorClass.canceledClosing ∧
    ((sampleBackend 3 0).UpdateScore (LoadResult.fail errCanceledClosing)).2 =
      some errCanceledClosing ∧
    ((sampleBackend 3 0).UpdateScore (LoadResult.fail errCanceledClosing)).1.failures ≠
      (sampleBackend 3 0).failures := by
  decide

/-- C7, amended: on a connected unit the failure counter after a failed call
equals the counter before it when the error is ignored (unimplemented) or is
the connection-closing sentinel; when the error is canceled-due-to-closing or
of an unclassified code, the counter is incremented by one, as it is for an
error of the recoverable class. -/
theorem updateScore_failures_by_class (b : backend) (err : GrpcError) (h : b.cln ≠ none) :
    ((classify err = ErrorClass.ignore ∨ classify err = ErrorClass.closing) →
      (b.UpdateScore (LoadResult.fail err)).1.failures = b.failures) ∧
    ((classify err = ErrorClass.canceledClosing ∨ classify err = ErrorClass.unclassified ∨
        classify err = ErrorClass.recoverable) →
      (b.UpdateScore (LoadResult.fail err)).1.failures = wrapInt (b.failures + 1)) := by
  rw [updateScore_fail b err h, handleError_failures b err]
  obtain ⟨s, c, m⟩ := err
  cases s <;> cases c <;> simp [classify, counted]
  split <;> simp

theorem updateScore_failures_by_class_witness :
    (sampleBackend 3 1).cln ≠ none ∧
    ((classify errClientConnClosing = ErrorClass.ignore ∨
        classify errClientConnClosing = ErrorClass.closing) →
      ((sampleBackend 3 1).UpdateScore (LoadResult.fail errClientConnClosing)).1.failures =
        (sampleBackend 3 1).failures) ∧
    ((classify errClientConnClosing = ErrorClass.canceledClosing ∨
        classify errClientConnClosing = ErrorClass.unclassified ∨
        classify errClientConnClosing = ErrorClass.recoverable) →
      ((sampleBackend 3 1).UpdateScore (LoadResult.fail errClientConnClosing)).1.failures =
        wrapInt ((sampleBackend 3 1).failures + 1)) :=
  ⟨by decide,
    updateScore_failures_by_class (sampleBackend 3 1) errClientConnClosing (by decide)⟩

/-- C8: on a connected unit, a failed call whose error is not the sentinel
and whose code is none of unimplemented, canceled, deadline-exceeded,
resource-exhausted, failed-precondition and aborted makes `UpdateScore` return
that same error, whatever the threshold and the failure counter, and the
failure counter is incremented by one (the increment of a Go `int`). -/
theorem updateScore_unclassified (b : backend) (err : GrpcError) (h : b.cln ≠ none)
    (hs : err.isErrClientConnClosing = false)
    (hc : err.code ≠ Code.Unimplemented ∧ err.code ≠ Code.Canceled ∧
      err.code ≠ Code.DeadlineExceeded ∧ err.code ≠ Code.ResourceExhausted ∧
      err.code ≠ Code.FailedPrecondition ∧ err.code ≠ Code.Aborted) :
    (b.UpdateScore (LoadResult.fail err)).2 = some err ∧
    (b.UpdateScore (LoadResult.fail err)).1.failures = wrapInt (b.failures + 1) ∧
    (isInt b.failures → b.failures < maxInt →
      (b.UpdateScore (LoadResult.fail err)).1.failures = b.failures + 1) := by
  rw [updateScore_fail b err h, handleError_unclassified b err hs hc]
  exact ⟨rfl, rfl, fun hi hlt => wrapInt_succ b.failures hi hlt⟩

theorem updateScore_unclassified_witness :
    (sampleBackend 0 4).cln ≠ none ∧ errUnavailable.isErrClientConnClosing = false ∧
    ((sampleBackend 0 4).UpdateScore (LoadResult.fail errUnavailable)).2 =
      some errUnavailable ∧
    ((sampleBackend 0 4).UpdateScore (LoadResult.fail errUnavailable)).1.failures =
      wrapInt ((sampleBackend 0 4).failures + 1) ∧
    (isInt (sampleBackend 0 4).failures → (sampleBackend 0 4).failures < maxInt →
      ((sampleBackend 0 4).UpdateScore (LoadResult.fail errUnavailable)).1.failures =
        (sampleBackend 0 4).failures + 1) :=
  ⟨by decide, by decide,
    updateScore_unclassified (sampleBackend 0 4) errUnavailable (by decide) (by decide)
      (by decide)⟩

/-- C9: with `maxFailures = 0` eviction by count is disabled.  On a connected
unit, whatever its failure counter, every call of a run of any length of
errors of the recoverable class returns nil. -/
theorem updateScores_threshold_zero (b : backend) (errs : List GrpcError)
    (hmax : b.maxFailures = 0) (hrec : ∀ x ∈ errs, recoverableClass x = true) :
    (b.updateScores (errs.map LoadResult.fail)).2 = List.replicate errs.length none :=
  updateScores_disabled errs b hrec (by omega)

theorem updateScores_threshold_zero_witness :
    (sampleBackend 0 0).cln ≠ none ∧ (sampleBackend 0 0).maxFailures = 0 ∧
    ((sampleBackend 0 0).updateScores
      ([errDeadline, errCanceled, errDeadline, errDeadline].map LoadResult.fail)).2 =
      List.replicate [errDeadline, errCanceled, errDeadline, errDeadline].length none :=
  ⟨by decide, by decide,
    updateScores_threshold_zero (sampleBackend 0 0)
      [errDeadline, errCanceled, errDeadline, errDeadline] (by decide) (by decide)⟩

/-- C10, as stated, fails: with `maxFailures = 2`, on a unit created with
counter 0, an error of an unclassified code followed by one deadline-exceeded
error makes the second call return its error, although a single error of the
recoverable class has occurred since creation. -/
theorem escalation_needs_recoverable_counterexample :
    (sampleBackend 2 0).cln ≠ none ∧ (sampleBackend 2 0).failures = 0 ∧
    0 < (sampleBackend 2 0).maxFailures ∧
    classify errUnavailable = ErrorClass.unclassified ∧
    recoverableClass errDeadline = true ∧
    (((sampleBackend 2 0).updateScores [LoadResult.fail errUnavailable]).1.UpdateScore
      (LoadResult.fail errDeadline)).2 = some errDeadline ∧
    countSinceSuccess recoverableClass 0
      ([LoadResult.fail errUnavailable] ++ [LoadResult.fail errDeadline]) = 1 ∧
    ¬ ((sampleBackend 2 0).maxFailures ≤
      countSinceSuccess recoverableClass 0
        ([LoadResult.fail errUnavailable] ++ [LoadResult.fail errDeadline])) := by
  decide

/-- C10, amended: on a connected unit created with counter 0, after any
sequence of refresh outcomes, `UpdateScore` returns a non-nil error for an
error of the recoverable class only if `maxFailures > 0` and at least
`maxFailures` failed calls whose error is neither the sentinel nor of code
unimplemented (this one included) have occurred since the last successful
refresh or since creation.  Errors that are canceled-due-to-closing or of an
unclassified code count towards the threshold; the sentinel and unimplemented
errors do not. -/
theorem updateScores_escalation_bound (b : backend) (pre : List LoadResult)
    (e : GrpcError) (h : b.cln ≠ none) (h0 : b.failures = 0)
    (he : recoverableClass e = true)
    (hret : ((b.updateScores pre).1.UpdateScore (LoadResult.fail e)).2 ≠ none) :
    0 < b.maxFailures ∧
    b.maxFailures ≤ countSinceSuccess counted 0 (pre ++ [LoadResult.fail e]) := by
  have hfr := updateScores_frame pre b
  have hc1 : (b.updateScores pre).1.cln ≠ none := by rw [hfr.1]; exact h
  have hcount := updateScores_failures_count pre b 0 h (by rw [h0]; decide)
  have hcnt : counted e = true := by
    obtain ⟨s, c, m⟩ := e
    cases s <;> cases c <;> simp [recoverableClass] at he <;> simp [counted]
  rw [updateScore_fail _ e hc1, handleError_recoverable _ e he, hfr.2, hcount,
    wrapInt_succ_wrapInt] at hret
  rw [countSinceSuccess_append]
  simp only [countStep, hcnt, if_true, Nat.cast_add, Nat.cast_one]
  by_cases hcond : 0 < b.maxFailures ∧
      b.maxFailures ≤ wrapInt ((countSinceSuccess counted 0 pre : Int) + 1)
  · have hle := wrapInt_le_self ((countSinceSuccess counted 0 pre : Int) + 1) (by omega)
    exact ⟨hcond.1, le_trans hcond.2 hle⟩
  · simp [hcond] at hret

theorem updateScores_escalation_bound_witness :
    (sampleBackend 2 0).cln ≠ none ∧ (sampleBackend 2 0).failures = 0 ∧
    recoverableClass errDeadline = true ∧
    (((sampleBackend 2 0).updateScores
      [LoadResult.fail errUnimplemented, LoadResult.fail errUnavailable]).1.UpdateScore
        (LoadResult.fail errDeadline)).2 ≠ none ∧
    0 < (sampleBackend 2 0).maxFailures ∧
    (sampleBackend 2 0).maxFailures ≤
      countSinceSuccess counted 0
        ([LoadResult.fail errUnimplemented, LoadResult.fail errUnavailable] ++
          [LoadResult.fail errDeadline]) :=
  ⟨by decide, by decide, by decide, by decide,
    updateScores_escalation_bound (sampleBackend 2 0)
      [LoadResult.fail errUnimplemented, LoadResult.fail errUnavailable] errDeadline
      (by decide) (by decide) (by decide) (by decide)⟩

/-! ### Construction -/

/-- C11: degraded mode.  When the dial fails, `newBackend` returns a non-nil
unit and a nil error for every target, address and threshold; `Score()` on
that unit is 0, and every run of `UpdateScore` calls on it returns nil at each
call and leaves the unit as it was, so that `Score()` is still 0. -/
theorem newBackend_dial_failed (target address : String) (maxFailures : Int)
    (load : LoadResult) (closeErr : Option GrpcError) :
    ∃ b : backend,
      (newBackend target address maxFailures none load closeErr).unit = some b ∧
      (newBackend target address maxFailures none load closeErr).err = none ∧
      b.Score = 0 ∧
      ∀ loads : List LoadResult,
        b.updateScores loads = (b, List.replicate loads.length none) ∧
        (b.updateScores loads).1.Score = 0 := by
  refine ⟨_, rfl, rfl, rfl, ?_⟩
  intro loads
  have hrun : ∀ c : backend, c.cln = none →
      c.updateScores loads = (c, List.replicate loads.length none) := by
    intro c hc
    induction loads with
    | nil => rfl
    | cons load rest ih =>
      simp [backend.updateScores, backend.UpdateScore, hc, ih, List.replicate_succ]
  rw [hrun _ rfl]
  exact ⟨rfl, rfl⟩

/-- C12: when the dial succeeds, `newBackend` makes one call of `UpdateScore`
on the unit it has built and fails exactly when that call returns a non-nil
error: it then returns a nil unit together with that same error, and the
connection is closed.  Otherwise it returns the unit left by that call with a
nil error and the connection open, and `Score()` on it is the score of the
first load report, or 0 when the first call failed and was ignored or
tolerated. -/
theorem newBackend_dialled (target address : String) (maxFailures : Int)
    (conn : ClientConn) (load : LoadResult) (closeErr : Option GrpcError) :
    (newBackend target address maxFailures (some conn) load closeErr).err =
      ((dialledBackend target address maxFailures conn).UpdateScore load).2 ∧
    ((newBackend target address maxFailures (some conn) load closeErr).unit = none ↔
      ((dialledBackend target address maxFailures conn).UpdateScore load).2 ≠ none) ∧
    ((newBackend target address maxFailures (some conn) load closeErr).unit = none →
      (newBackend target address maxFailures (some conn) load closeErr).conn =
        some { closed := true }) ∧
    (∀ u : backend,
      (newBackend target address maxFailures (some conn) load closeErr).unit = some u →
        u = ((dialledBackend target address maxFailures conn).UpdateScore load).1 ∧
        (newBackend target address maxFailures (some conn) load closeErr).conn = some conn ∧
        u.Score = (lastSuccess [load]).getD 0) := by
  have hcln : (dialledBackend target address maxFailures conn).cln ≠ none := by
    simp [dialledBackend]
  have hscore := updateScores_score [load] (dialledBackend target address maxFailures conn) hcln
  have hcc : ((dialledBackend target address maxFailures conn).UpdateScore load).1.cc =
      some conn := by
    cases load with
    | ok s => rw [updateScore_ok _ s hcln]; rfl
    | fail err => rw [updateScore_fail _ err hcln, handleError_frame]; rfl
  have hnew : newBackend target address maxFailures (some conn) load closeErr =
      match ((dialledBackend target address maxFailures conn).UpdateScore load).2 with
      | some err =>
        { unit := none, err := some err,
          conn := (((dialledBackend target address maxFailures conn).UpdateScore load).1.Close
            closeErr).1.cc }
      | none =>
        { unit := some ((dialledBackend target address maxFailures conn).UpdateScore load).1,
          err := none,
          conn := ((dialledBackend target address maxFailures conn).UpdateScore load).1.cc } :=
    rfl
  rw [hnew]
  cases hr : ((dialledBackend target address maxFailures conn).UpdateScore load).2 with
  | none =>
    refine ⟨rfl, by simp, by simp, ?_⟩
    intro u hu
    simp only [Option.some.injEq] at hu
    subst hu
    exact ⟨rfl, hcc, hscore⟩
  | some err =>
    refine ⟨rfl, by simp, ?_, by simp⟩
    intro _
    simp [backend.Close, hcc]

/-- C13: `Score()` reflects the last score retrieved.  On a connected unit,
after any sequence of refresh outcomes, `Score()` is the score carried by the
last success of the sequence, or the score the unit had before the sequence
when the sequence has no success: 0 for a unit as it is created. -/
theorem updateScores_last_success (b : backend) (loads : List LoadResult)
    (h : b.cln ≠ none) :
    (b.updateScores loads).1.Score = (lastSuccess loads).getD b.Score ∧
    (b.Score = 0 → (b.updateScores loads).1.Score = (lastSuccess loads).getD 0) := by
  have hs := updateScores_score loads b h
  refine ⟨hs, fun h0 => ?_⟩
  have h0' : b.score = 0 := h0
  rw [← h0']
  exact hs

theorem updateScores_last_success_witness :
    (dialledBackend "svc" "10.0.0.1:8080" 3 { closed := false }).cln ≠ none ∧
    lastSuccess [LoadResult.ok 4, LoadResult.fail errDeadline, LoadResult.ok 9,
      LoadResult.fail errUnavailable, LoadResult.fail errUnimplemented] = some 9 ∧
    ((dialledBackend "svc" "10.0.0.1:8080" 3 { closed := false }).updateScores
      [LoadResult.ok 4, LoadResult.fail errDeadline, LoadResult.ok 9,
        LoadResult.fail errUnavailable, LoadResult.fail errUnimplemented]).1.Score =
      (lastSuccess [LoadResult.ok 4, LoadResult.fail errDeadline, LoadResult.ok 9,
        LoadResult.fail errUnavailable, LoadResult.fail errUnimplemented]).getD
        (dialledBackend "svc" "10.0.0.1:8080" 3 { closed := false }).Score ∧
    ((dialledBackend "svc" "10.0.0.1:8080" 3 { closed := false }).Score = 0 →
      ((dialledBackend "svc" "10.0.0.1:8080" 3 { closed := false }).updateScores
        [LoadResult.ok 4, LoadResult.fail errDeadline, LoadResult.ok 9,
          LoadResult.fail errUnavailable, LoadResult.fail errUnimplemented]).1.Score =
        (lastSuccess [LoadResult.ok 4, LoadResult.fail errDeadline, LoadResult.ok 9,
          LoadResult.fail errUnavailable, LoadResult.fail errUnimplemented]).getD 0) :=
  ⟨by decide, by decide,
    updateScores_last_success (dialledBackend "svc" "10.0.0.1:8080" 3 { closed := false })
      [LoadResult.ok 4, LoadResult.fail errDeadline, LoadResult.ok 9,
        LoadResult.fail errUnavailable, LoadResult.fail errUnimplemented] (by decide)⟩

/-- C14: the test for the connection-closing sentinel comes first.  On a
connected unit, when the load-report call fails with
`grpc.ErrClientConnClosing`, `UpdateScore` returns that error as it is and
leaves the failure counter, the score and the rest of the unit unchanged,
whatever the code of the error, the threshold and the failure counter. -/
theorem updateScore_sentinel (b : backend) (err : GrpcError) (h : b.cln ≠ none)
    (hs : err.isErrClientConnClosing = true) :
    (b.UpdateScore (LoadResult.fail err)).2 = some err ∧
    (b.UpdateScore (LoadResult.fail err)).1.failures = b.failures ∧
    (b.UpdateScore (LoadResult.fail err)).1.Score = b.Score ∧
    (b.UpdateScore (LoadResult.fail err)).1 = b := by
  rw [updateScore_fail b err h, handleError_closing b err hs]
  exact ⟨rfl, rfl, rfl, rfl⟩

theorem updateScore_sentinel_witness :
    (sampleBackend 1 6).cln ≠ none ∧ errClientConnClosing.isErrClientConnClosing = true ∧
    ((sampleBackend 1 6).UpdateScore (LoadResult.fail errClientConnClosing)).2 =
      some errClientConnClosing ∧
    ((sampleBackend 1 6).UpdateScore (LoadResult.fail errClientConnClosing)).1.failures =
      (sampleBackend 1 6).failures ∧
    ((sampleBackend 1 6).UpdateScore (LoadResult.fail errClientConnClosing)).1.Score =
      (sampleBackend 1 6).Score ∧
    ((sampleBackend 1 6).UpdateScore (LoadResult.fail errClientConnClosing)).1 =
      sampleBackend 1 6 :=
  ⟨by decide, by decide,
    updateScore_sentinel (sampleBackend 1 6) errClientConnClosing (by decide) (by decide)⟩

theorem newBackend_dialled_witness :
    newBackend "svc" "10.0.0.1:8080" 3 (some { closed := false })
      (LoadResult.fail errUnavailable) none =
      { unit := none, err := some errUnavailable, conn := some { closed := true } } ∧
    (newBackend "svc" "10.0.0.1:8080" 3 (some { closed := false })
      (LoadResult.fail errDeadline) none).unit =
      some { dialledBackend "svc" "10.0.0.1:8080" 3 { closed := false } with failures := 1 } ∧
    (newBackend "svc" "10.0.0.1:8080" 3 (some { closed := false })
      (LoadResult.fail errUnavailable) none).err =
      ((dialledBackend "svc" "10.0.0.1:8080" 3 { closed := false }).UpdateScore
        (LoadResult.fail errUnavailable)).2 :=
  ⟨by decide, by decide,
    (newBackend_dialled "svc" "10.0.0.1:8080" 3 { closed := false }
      (LoadResult.fail errUnavailable) none).1⟩

/-! ### Projection and teardown -/

/-- C15: `Server()` is a projection.  For every unit it returns a record whose
`Address` is the address of the unit and whose `Score` is `Score()`, and the
unit after the call is the unit before it, field by field. -/
theorem server_projection (b : backend) :
    b.Server.2.Address = b.address ∧ b.Server.2.Score = b.Score ∧ b.Server.1 = b :=
  ⟨rfl, rfl, rfl⟩

/-- C16: on a unit without a connection handle (the dial failed), `Close()`
returns nil and changes nothing, and so does every call of a run of `Close`
calls of any length. -/
theorem close_never_connected (b : backend) (closeErrs : List (Option GrpcError))
    (closeErr : Option GrpcError) (h : b.cc = none) :
    b.Close closeErr = (b, none) ∧
    b.closeAll closeErrs = (b, List.replicate closeErrs.length none) := by
  have hone : ∀ ce : Option GrpcError, b.Close ce = (b, none) := by
    intro ce
    simp [backend.Close, h]
  refine ⟨hone closeErr, ?_⟩
  induction closeErrs with
  | nil => rfl
  | cons ce rest ih => simp [backend.closeAll, hone ce, ih, List.replicate_succ]

theorem close_never_connected_witness :
    (newBackend "svc" "10.0.0.1:8080" 3 none (LoadResult.ok 5) none).unit =
      some degradedBackend ∧
    degradedBackend.cc = none ∧
    degradedBackend.Close (some errClientConnClosing) = (degradedBackend, none) ∧
    degradedBackend.closeAll [none, some errClientConnClosing, none] =
      (degradedBackend, List.replicate [none, some errClientConnClosing, none].length none) :=
  ⟨by decide, by decide,
    close_never_connected degradedBackend [none, some errClientConnClosing, none]
      (some errClientConnClosing) (by decide)⟩

/-! ### Failed refreshes -/

/-- C17: frame of a failed refresh.  On a connected unit, whatever the class
of the error, `UpdateScore` after a failed load-report call leaves the score,
the target, the address, the threshold, the connection and the client as they
were (the failure counter alone may change), and its result is nil or the
error of the call; a nil result leaves the previous score in place. -/
theorem updateScore_fail_frame (b : backend) (err : GrpcError) (h : b.cln ≠ none) :
    (b.UpdateScore (LoadResult.fail err)).1.score = b.score ∧
    (b.UpdateScore (LoadResult.fail err)).1.target = b.target ∧
    (b.UpdateScore (LoadResult.fail err)).1.address = b.address ∧
    (b.UpdateScore (LoadResult.fail err)).1.maxFailures = b.maxFailures ∧
    (b.UpdateScore (LoadResult.fail err)).1.cc = b.cc ∧
    (b.UpdateScore (LoadResult.fail err)).1.cln = b.cln ∧
    ((b.UpdateScore (LoadResult.fail err)).2 = none ∨
      (b.UpdateScore (LoadResult.fail err)).2 = some err) ∧
    ((b.UpdateScore (LoadResult.fail err)).2 = none →
      (b.UpdateScore (LoadResult.fail err)).1.Score = b.Score) := by
  have hres := handleError_result b err
  rw [updateScore_fail b err h]
  refine ⟨?_, ?_, ?_, ?_, ?_, ?_, hres, fun _ => ?_⟩ <;>
    first
      | (show (b.handleError err).1.score = b.score; rw [handleError_frame b err])
      | (rw [handleError_frame b err])

theorem updateScore_fail_frame_witness :
    (sampleBackend 3 2).cln ≠ none ∧
    ((sampleBackend 3 2).UpdateScore (LoadResult.fail errCanceled)).1 =
      { sampleBackend 3 2 with failures := 3 } ∧
    ((sampleBackend 3 2).UpdateScore (LoadResult.fail errCanceled)).1.score =
      (sampleBackend 3 2).score :=
  ⟨by decide, by decide,
    (updateScore_fail_frame (sampleBackend 3 2) errCanceled (by decide)).1⟩

/-! ### The failure counter over a run -/

/-- C18: counter invariant.  On a connected unit created with counter 0,
after any sequence of refresh outcomes the failure counter is the number of
failed calls since the last success (or since creation) whose error was
neither the sentinel nor of code unimplemented, as a Go `int`: it equals that
number, and is not negative, as long as the number does not exceed the largest
`int`.  The errors counted are those of the recoverable class and the fatal
ones that are canceled-due-to-closing or of an unclassified code alike. -/
theorem updateScores_counter_invariant (b : backend) (loads : List LoadResult)
    (h : b.cln ≠ none) (h0 : b.failures = 0) :
    (b.updateScores loads).1.failures = wrapInt (countSinceSuccess counted 0 loads) ∧
    ((countSinceSuccess counted 0 loads : Int) ≤ maxInt →
      (b.updateScores loads).1.failures = countSinceSuccess counted 0 loads ∧
      0 ≤ (b.updateScores loads).1.failures) ∧
    (∀ e : GrpcError, counted e = true ↔
      (classify e = ErrorClass.recoverable ∨ classify e = ErrorClass.canceledClosing ∨
        classify e = ErrorClass.unclassified)) := by
  have hcount := updateScores_failures_count loads b 0 h (by rw [h0]; decide)
  refine ⟨hcount, fun hle => ?_, fun e => ?_⟩
  · have hw : wrapInt (countSinceSuccess counted 0 loads : Int) =
        countSinceSuccess counted 0 loads := by
      unfold maxInt at hle
      unfold wrapInt
      omega
    rw [hcount, hw]
    exact ⟨rfl, by omega⟩
  · obtain ⟨s, c, m⟩ := e
    cases s <;> cases c <;> simp [classify, counted]
    split <;> simp

theorem updateScores_counter_invariant_witness :
    (sampleBackend 5 0).cln ≠ none ∧ (sampleBackend 5 0).failures = 0 ∧
    countSinceSuccess counted 0
      [LoadResult.fail errDeadline, LoadResult.ok 8, LoadResult.fail errCanceledClosing,
        LoadResult.fail errUnimplemented, LoadResult.fail errClientConnClosing,
        LoadResult.fail errUnavailable, LoadResult.fail errCanceled] = 3 ∧
    ((sampleBackend 5 0).updateScores
      [LoadResult.fail errDeadline, LoadResult.ok 8, LoadResult.fail errCanceledClosing,
        LoadResult.fail errUnimplemented, LoadResult.fail errClientConnClosing,
        LoadResult.fail errUnavailable, LoadResult.fail errCanceled]).1.failures = 3 ∧
    ((sampleBackend 5 0).updateScores
      [LoadResult.fail errDeadline, LoadResult.ok 8, LoadResult.fail errCanceledClosing,
        LoadResult.fail errUnimplemented, LoadResult.fail errClientConnClosing,
        LoadResult.fail errUnavailable, LoadResult.fail errCanceled]).1.failures =
      wrapInt (countSinceSuccess counted 0
        [LoadResult.fail errDeadline, LoadResult.ok 8, LoadResult.fail errCanceledClosing,
          LoadResult.fail errUnimplemented, LoadResult.fail errClientConnClosing,
          LoadResult.fail errUnavailable, LoadResult.fail errCanceled]) :=
  ⟨by decide, by decide, by decide, by decide,
    (updateScores_counter_invariant (sampleBackend 5 0)
      [LoadResult.fail errDeadline, LoadResult.ok 8, LoadResult.fail errCanceledClosing,
        LoadResult.fail errUnimplemented, LoadResult.fail errClientConnClosing,
        LoadResult.fail errUnavailable, LoadResult.fail errCanceled]
      (by decide) (by decide)).1⟩

/-- C19: escalation is sticky until a success.  On a connected unit with
`maxFailures > 0` whose failure counter has reached `maxFailures`, after any
run of failed calls of any classes (the counter staying below the largest
`int`), a call that fails with an error of the recoverable class returns that
error; a successful refresh puts the counter back to 0. -/
theorem updateScores_escalation_sticky (b : backend) (pre : List GrpcError)
    (e : GrpcError) (h : b.cln ≠ none) (hpos : 0 < b.maxFailures)
    (hge : b.maxFailures ≤ b.failures)
    (hroom : b.failures + (pre.length : Int) < maxInt)
    (he : recoverableClass e = true) :
    ((b.updateScores (pre.map LoadResult.fail)).1.UpdateScore (LoadResult.fail e)).2 =
      some e ∧
    (∀ s : Int,
      ((b.updateScores (pre.map LoadResult.fail)).1.UpdateScore
        (LoadResult.ok s)).1.failures = 0) := by
  have hfr := updateScores_frame (pre.map LoadResult.fail) b
  have hc1 : (b.updateScores (pre.map LoadResult.fail)).1.cln ≠ none := by
    rw [hfr.1]; exact h
  have hb := updateScores_fail_failures_bounds pre b h (by omega) (by omega)
  constructor
  · rw [updateScore_fail _ e hc1, handleError_recoverable _ e he, hfr.2]
    have hw : wrapInt ((b.updateScores (pre.map LoadResult.fail)).1.failures + 1) =
        (b.updateScores (pre.map LoadResult.fail)).1.failures + 1 := by
      unfold maxInt at hroom
      unfold wrapInt
      omega
    have hyes : 0 < b.maxFailures ∧
        b.maxFailures ≤ (b.updateScores (pre.map LoadResult.fail)).1.failures + 1 := by
      omega
    rw [hw]
    simp [hyes]
  · intro s
    rw [updateScore_ok _ s hc1]

theorem updateScores_escalation_sticky_witness :
    (sampleBackend 2 2).cln ≠ none ∧
    0 < (sampleBackend 2 2).maxFailures ∧
    (sampleBackend 2 2).maxFailures ≤ (sampleBackend 2 2).failures ∧
    recoverableClass errDeadline = true ∧
    (((sampleBackend 2 2).updateScores
      ([errUnimplemented, errUnavailable, errCanceledClosing, errClientConnClosing].map
        LoadResult.fail)).1.UpdateScore (LoadResult.fail errDeadline)).2 =
      some errDeadline ∧
    (∀ s : Int,
      (((sampleBackend 2 2).updateScores
        ([errUnimplemented, errUnavailable, errCanceledClosing, errClientConnClosing].map
          LoadResult.fail)).1.UpdateScore (LoadResult.ok s)).1.failures = 0) :=
  ⟨by decide, by decide, by decide, by decide,
    updateScores_escalation_sticky (sampleBackend 2 2)
      [errUnimplemented, errUnavailable, errCanceledClosing, errClientConnClosing]
      errDeadline (by decide) (by decide) (by decide) (by decide) (by decide)⟩

end balancer
